import Mathlib

/-!
# Verification of the browserd Chromium DevTools proxy

Shallow embedding of `src/main.go` (package `main` of peedief/browserd):
endpoint discovery (`versionEndpoint`, `fetchVersionInfo`), the debugger-URL
cache (`ensureDebuggerURL`, `getDebuggerURL`), the health handler
(`handleHealth`), routing (`handleProxy` and the mux from `start`), the
WebSocket gateway (`dialBackend`, `serveWebSocket`) and the message mirror
(`mirrorWebsocket`).
-/

namespace Browserd

/-- The `versionInfo` struct decoded from the backend's `/json/version`
response (main.go lines 27-31). Missing JSON fields decode to the empty
string, as Go's zero value. -/
structure VersionInfo where
  browser : String
  protocolVersion : String
  webSocketDebuggerURL : String
deriving DecidableEq, Repr

/-- Result of JSON-decoding an HTTP response body into `versionInfo`
(main.go lines 106-109): either the decoder fails with some error message,
or it yields a `versionInfo` value. -/
inductive Body where
  | malformed (msg : String)
  | decoded (info : VersionInfo)
deriving DecidableEq, Repr

/-- An HTTP response as seen by `fetchVersionInfo`: Go's `resp.StatusCode`,
`resp.Status` (the textual status line used in `errors.New(resp.Status)`),
and the body's decode result. -/
structure HttpResponse where
  statusCode : Nat
  status : String
  body : Body
deriving DecidableEq, Repr

/-- Outcome of the round trip `p.client.Do(req)` (main.go line 96): either a
transport error (unreachable backend, timeout, ...) carrying its error
string, or a delivered response. -/
inductive HttpResult where
  | unreachable (msg : String)
  | success (resp : HttpResponse)
deriving DecidableEq, Repr

/-- The failure cases of `fetchVersionInfo` (the spec's `DiscoveryError`):
transport error from `client.Do`, non-OK status (`errors.New(resp.Status)`),
JSON decode error, or empty `webSocketDebuggerUrl` field. -/
inductive DiscoveryError where
  | transport (msg : String)
  | badStatus (status : String)
  | malformedBody (msg : String)
  | missingDebuggerURL
deriving DecidableEq, Repr

/-- The Go `err.Error()` string of each discovery failure
(main.go lines 98, 103, 108, 112). -/
def DiscoveryError.message : DiscoveryError → String
  | .transport msg => msg
  | .badStatus status => status
  | .malformedBody msg => msg
  | .missingDebuggerURL =>
      "chromium /json/version response missing webSocketDebuggerUrl"

/-- `http.StatusOK`; the only status `fetchVersionInfo` accepts
(main.go line 102). -/
def statusOK : Nat := 200

/-- `fetchVersionInfo` (main.go lines 90-116): perform the GET against the
version endpoint, reject any status other than `http.StatusOK`, decode the
body, and reject an empty `webSocketDebuggerUrl`. -/
def fetchVersionInfo : HttpResult → Except DiscoveryError VersionInfo
  | .unreachable msg => .error (.transport msg)
  | .success resp =>
    if resp.statusCode ≠ statusOK then
      .error (.badStatus resp.status)
    else
      match resp.body with
      | .malformed msg => .error (.malformedBody msg)
      | .decoded info =>
        if info.webSocketDebuggerURL = "" then
          .error .missingDebuggerURL
        else
          .ok info

/-- Result of one `ensureDebuggerURL` call: the error if any, the cache
contents afterwards, and how many backend requests were issued. -/
structure EnsureOutcome where
  err : Option DiscoveryError
  cache : String
  requests : Nat
deriving DecidableEq, Repr

/-- `ensureDebuggerURL` (main.go lines 118-136): return immediately when
the cache (`p.debuggerURL`) is non-empty; otherwise fetch the version info
(one backend request) and on success store its `webSocketDebuggerUrl`. -/
def ensureDebuggerURL (cache : String) (backend : HttpResult) : EnsureOutcome :=
  if cache ≠ "" then
    { err := none, cache := cache, requests := 0 }
  else
    match fetchVersionInfo backend with
    | .error e => { err := some e, cache := cache, requests := 1 }
    | .ok info => { err := none, cache := info.webSocketDebuggerURL, requests := 1 }

/-- Repeated `ensureDebuggerURL` calls, one per listed backend outcome,
threading the cache and summing the backend requests issued. -/
def ensureRepeat (cache : String) : List HttpResult → String × Nat
  | [] => (cache, 0)
  | b :: bs =>
    let o := ensureDebuggerURL cache b
    let rest := ensureRepeat o.cache bs
    (rest.1, o.requests + rest.2)

/-- The reply a handler writes: `http.Error(w, "method not allowed", 405)`,
`http.Error(w, err.Error(), 503)`, the 200 JSON health object (a JSON
object is an unordered key-value mapping; we carry the pairs in the order
of the Go map literal, main.go lines 185-190), `http.NotFound`, or the
handing-off of the connection to `serveWebSocket`. -/
inductive HttpReply where
  | methodNotAllowed
  | serviceUnavailable (reason : String)
  | okJson (fields : List (String × String))
  | notFound
  | upgraded
deriving DecidableEq, Repr

/-- The HTTP status code each reply carries. -/
def HttpReply.statusCode : HttpReply → Nat
  | .methodNotAllowed => 405
  | .serviceUnavailable _ => 503
  | .okJson _ => 200
  | .notFound => 404
  | .upgraded => 101

/-- Result of one request handled by the server: the reply, the cache
contents afterwards, and how many backend version-info requests were
issued. -/
structure HandlerOutcome where
  reply : HttpReply
  cache : String
  requests : Nat
deriving DecidableEq, Repr

/-- `handleHealth` (main.go lines 159-194): reject any method other than
GET with 405; otherwise always fetch the version info afresh. On failure
answer 503 with the error message; on success overwrite the cache with the
fetched `webSocketDebuggerUrl` and answer 200 with the JSON object
`{status, browser, webSocketDebuggerUrl, protocolVersion}`. -/
def handleHealth (method : String) (cache : String) (backend : HttpResult) :
    HandlerOutcome :=
  if method ≠ "GET" then
    { reply := .methodNotAllowed, cache := cache, requests := 0 }
  else
    match fetchVersionInfo backend with
    | .error e =>
      { reply := .serviceUnavailable e.message, cache := cache, requests := 1 }
    | .ok info =>
      { reply := .okJson
          [("status", "ok"),
           ("browser", info.browser),
           ("webSocketDebuggerUrl", info.webSocketDebuggerURL),
           ("protocolVersion", info.protocolVersion)],
        cache := info.webSocketDebuggerURL,
        requests := 1 }

/-- `handleProxy` (main.go lines 196-203): hand WebSocket upgrade requests
to `serveWebSocket`, answer every other request with `http.NotFound`. -/
def handleProxy (isUpgrade : Bool) (cache : String) : HandlerOutcome :=
  if isUpgrade then
    { reply := .upgraded, cache := cache, requests := 0 }
  else
    { reply := .notFound, cache := cache, requests := 0 }

/-- The mux registered by `start` (main.go lines 251-253): the exact path
`/healthz` goes to `handleHealth`, every other path to `handleProxy`. -/
def route (path method : String) (isUpgrade : Bool) (cache : String)
    (backend : HttpResult) : HandlerOutcome :=
  if path = "/healthz" then
    handleHealth method cache backend
  else
    handleProxy isUpgrade cache

/-- The request header `dialBackend` sends to the backend
(main.go lines 150-153): `Sec-WebSocket-Protocol` is set exactly when the
client connection's negotiated subprotocol is non-empty. -/
def dialHeader (subprotocol : String) : List (String × String) :=
  if subprotocol ≠ "" then
    [("Sec-WebSocket-Protocol", subprotocol)]
  else
    []

/-- Outcome of `p.dialer.DialContext` (main.go line 155). -/
inductive DialResult where
  | failed (msg : String)
  | connected
deriving DecidableEq, Repr

/-- `websocket.CloseTryAgainLater`, the close code sent on dial failure
(main.go line 219). -/
def closeTryAgainLater : Nat := 1013

/-- Observable events of one gateway session, in order. -/
inductive WsEvent where
  | sentClose (code : Nat) (reason : String)
  | startedMirror
  | closedClientConn
  | closedBackendConn
deriving DecidableEq, Repr

/-- `dialBackend` (main.go lines 144-157) without the connection value:
run `ensureDebuggerURL`, and on success attempt the dial with
`dialHeader`. Returns the error if any together with the cache
afterwards. -/
def dialBackend (cache : String) (backend : HttpResult) (dial : DialResult) :
    Option String × String :=
  let ensured := ensureDebuggerURL cache backend
  match ensured.err with
  | some e => (some e.message, ensured.cache)
  | none =>
    match dial with
    | .failed msg => (some msg, ensured.cache)
    | .connected => (none, ensured.cache)

/-- `serveWebSocket` after a successful upgrade (main.go lines 211-233):
on `dialBackend` failure write exactly one close control frame with code
`CloseTryAgainLater` and reason "upstream unavailable", then close the
client connection (the deferred `conn.Close()`); on success start the two
mirror pumps and, once the first terminates, close both connections. -/
def serveWebSocket (cache : String) (backend : HttpResult) (dial : DialResult) :
    List WsEvent × String :=
  let dialed := dialBackend cache backend dial
  match dialed.1 with
  | some _ =>
    ([.sentClose closeTryAgainLater "upstream unavailable", .closedClientConn],
     dialed.2)
  | none =>
    ([.startedMirror, .closedBackendConn, .closedClientConn], dialed.2)

/-- A WebSocket message as read by `ReadMessage`: its type and its payload
bytes. -/
structure WsMessage where
  msgType : Int
  data : List Nat
deriving DecidableEq, Repr

/-- One pump of `mirrorWebsocket` (main.go lines 235-248), given the
messages its source connection delivers before the read that fails: read
one message, write a message with that type and that payload to the
destination, repeat. The result is the sequence of messages written. -/
def mirrorWrites : List WsMessage → List WsMessage
  | [] => []
  | m :: rest => { msgType := m.msgType, data := m.data } :: mirrorWrites rest

/-- A backend that echoes every message verbatim (the hypothetical peer of
the round-trip property; not part of main.go). -/
def echoVerbatim (ms : List WsMessage) : List WsMessage := ms

/-- Round trip through the gateway against an echoing backend: the
client-to-backend pump forwards the client's messages, the backend echoes
them, the backend-to-client pump forwards them back. -/
def roundTrip (sent : List WsMessage) : List WsMessage :=
  mirrorWrites (echoVerbatim (mirrorWrites sent))

/-- The subset of Go's `url.URL` that `versionEndpoint` touches. -/
structure URL where
  scheme : String
  host : String
  path : String
  rawQuery : String
  fragment : String
deriving DecidableEq, Repr

/-- Go's `strings.TrimSuffix`: drop the suffix when present, else return
the string unchanged. -/
def trimSuffix (s suffix : String) : String :=
  if s.endsWith suffix then s.dropRight suffix.length else s

/-- `versionEndpoint` (main.go lines 81-88) at the URL-component level:
copy the configured backend URL, strip the path's trailing slash, append
`/json/version`, and clear the query and fragment. -/
def versionEndpoint (chromiumURL : URL) : URL :=
  { chromiumURL with
    path := trimSuffix chromiumURL.path "/" ++ "/json/version",
    rawQuery := "",
    fragment := "" }

/-- The operations that touch the cache field `p.debuggerURL`: it is read
everywhere but written only inside `ensureDebuggerURL`
(main.go lines 130-132) and `handleHealth` (lines 174-177); a gateway
session writes only through the `ensureDebuggerURL` it runs. -/
inductive Op where
  | ensure (backend : HttpResult)
  | request (path method : String) (isUpgrade : Bool) (backend : HttpResult)
  | session (backend : HttpResult) (dial : DialResult)
deriving DecidableEq, Repr

/-- The cache after one operation. -/
def Op.step (cache : String) : Op → String
  | .ensure backend => (ensureDebuggerURL cache backend).cache
  | .request path method isUpgrade backend =>
      (route path method isUpgrade cache backend).cache
  | .session backend dial => (serveWebSocket cache backend dial).2

/-- The cache after a sequence of operations. -/
def runOps (cache : String) : List Op → String
  | [] => cache
  | op :: ops => runOps (op.step cache) ops

/-- Whether discovery fails on a given backend outcome. -/
def discoveryFailed (r : HttpResult) : Bool :=
  match fetchVersionInfo r with
  | .error _ => true
  | .ok _ => false

/-- The spec's enumeration of discovery failure causes, with the status
condition amended to the code's actual check (status ≠ 200, not merely
non-2xx): unreachable backend, status other than 200 OK, malformed JSON
body, or empty debugger-address field. -/
def discoveryFailureCase : HttpResult → Prop
  | .unreachable _ => True
  | .success resp =>
      resp.statusCode ≠ statusOK ∨
      (∃ msg, resp.body = .malformed msg) ∨
      (∃ info, resp.body = .decoded info ∧ info.webSocketDebuggerURL = "")

/-- Whether a gateway session event is a close control frame. -/
def WsEvent.isClose : WsEvent → Bool
  | .sentClose _ _ => true
  | _ => false

/-- The version info of the spec's health scenario. -/
def sampleInfo : VersionInfo :=
  { browser := "Chrome/1.0",
    protocolVersion := "1.3",
    webSocketDebuggerURL := "ws://127.0.0.1:9222/devtools/browser/abc" }

/-- A 200 OK backend response carrying `sampleInfo`. -/
def sampleResp : HttpResponse :=
  { statusCode := 200, status := "200 OK", body := .decoded sampleInfo }

/-- A 201 backend response (2xx but not 200) carrying `sampleInfo`. -/
def resp201 : HttpResponse :=
  { statusCode := 201, status := "201 Created", body := .decoded sampleInfo }

/-! ## Helper lemmas -/

/-- A successful fetch always carries a non-empty debugger URL
(the guard at main.go lines 111-113). -/
theorem fetch_ok_nonempty (r : HttpResult) (info : VersionInfo)
    (h : fetchVersionInfo r = .ok info) : info.webSocketDebuggerURL ≠ "" := by
  cases r with
  | unreachable msg => simp [fetchVersionInfo] at h
  | success resp =>
    simp only [fetchVersionInfo] at h
    split at h
    · simp at h
    · split at h
      · simp at h
      · split at h
        · simp at h
        · rename_i hu
          injection h with h2
          exact h2 ▸ hu

/-- A populated cache makes `ensureDebuggerURL` a no-op. -/
theorem ensure_cache_kept (cache : String) (b : HttpResult) (h : cache ≠ "") :
    ensureDebuggerURL cache b = { err := none, cache := cache, requests := 0 } := by
  simp [ensureDebuggerURL, h]

/-- Every operation preserves a non-empty cache. -/
theorem step_preserves_nonempty (cache : String) (op : Op) (h : cache ≠ "") :
    op.step cache ≠ "" := by
  cases op with
  | ensure b => simpa [Op.step, ensure_cache_kept cache b h] using h
  | request path method isUpgrade b =>
    simp only [Op.step, route]
    split
    · simp only [handleHealth]
      split
      · simpa using h
      · split
        · simpa using h
        · next info hfetch => simpa using fetch_ok_nonempty b info hfetch
    · simp only [handleProxy]; split <;> simpa using h
  | session b dial =>
    cases dial <;>
      simp only [Op.step, serveWebSocket, dialBackend, ensure_cache_kept cache b h] <;>
      simpa using h

/-- Every operation either leaves the cache unchanged or writes a
non-empty string into it. -/
theorem step_writes_nonempty (cache : String) (op : Op) :
    op.step cache = cache ∨ op.step cache ≠ "" := by
  by_cases hc : cache = ""
  · subst hc
    cases op with
    | ensure b =>
      cases hfe : fetchVersionInfo b with
      | error e => left; simp [Op.step, ensureDebuggerURL, hfe]
      | ok info =>
        right
        simpa [Op.step, ensureDebuggerURL, hfe] using fetch_ok_nonempty b info hfe
    | request path method isUpgrade b =>
      by_cases hp : path = "/healthz"
      · by_cases hm : method = "GET"
        · cases hfe : fetchVersionInfo b with
          | error e => left; simp [Op.step, route, hp, handleHealth, hm, hfe]
          | ok info =>
            right
            simpa [Op.step, route, hp, handleHealth, hm, hfe] using
              fetch_ok_nonempty b info hfe
        · left; simp [Op.step, route, hp, handleHealth, hm]
      · left; cases isUpgrade <;> simp [Op.step, route, hp, handleProxy]
    | session b dial =>
      cases hfe : fetchVersionInfo b with
      | error e =>
        left
        cases dial <;>
          simp [Op.step, serveWebSocket, dialBackend, ensureDebuggerURL, hfe]
      | ok info =>
        right
        cases dial <;>
          simpa [Op.step, serveWebSocket, dialBackend, ensureDebuggerURL, hfe] using
            fetch_ok_nonempty b info hfe
  · exact Or.inr (step_preserves_nonempty cache op hc)

/-! ## Claim theorems -/

/-- C1: for every backend response to the version-info request with
successful status (200 OK), a well-formed JSON body and a non-empty
`webSocketDebuggerUrl`, the fetch yields that version info, and
`ensureDebuggerURL` on an empty cache succeeds with the cache equal to
exactly that `webSocketDebuggerUrl` value (one backend request issued). -/
theorem ensure_empty_cache_discovers (resp : HttpResponse) (info : VersionInfo)
    (hstatus : resp.statusCode = statusOK)
    (hbody : resp.body = .decoded info)
    (hurl : info.webSocketDebuggerURL ≠ "") :
    fetchVersionInfo (.success resp) = .ok info ∧
    ensureDebuggerURL "" (.success resp) =
      { err := none, cache := info.webSocketDebuggerURL, requests := 1 } := by
  have hf : fetchVersionInfo (.success resp) = .ok info := by
    simp [fetchVersionInfo, hstatus, hbody, hurl]
  exact ⟨hf, by simp [ensureDebuggerURL, hf]⟩

/-- Witness for C1 at the spec's sample response. -/
theorem ensure_empty_cache_discovers_witness :
    fetchVersionInfo (.success sampleResp) = .ok sampleInfo ∧
    ensureDebuggerURL "" (.success sampleResp) =
      { err := none, cache := sampleInfo.webSocketDebuggerURL, requests := 1 } :=
  ensure_empty_cache_discovers sampleResp sampleInfo rfl rfl (by decide)

/-- C2 counterexample: the claim says discovery fails exactly on non-2xx
statuses and succeeds for every 2xx response with a well-formed body and a
non-empty debugger address; but the code rejects any status other than
exactly 200 (`resp.StatusCode != http.StatusOK`, main.go line 102), so a
201 response with a perfectly valid body fails. -/
theorem fetch_rejects_2xx_non_200 :
    (200 ≤ resp201.statusCode ∧ resp201.statusCode < 300) ∧
    resp201.body = .decoded sampleInfo ∧
    sampleInfo.webSocketDebuggerURL ≠ "" ∧
    fetchVersionInfo (.success resp201) = .error (.badStatus "201 Created") :=
  ⟨⟨by decide, by decide⟩, rfl, by decide, rfl⟩

/-- C2 (amended): discovery fails exactly when the backend is unreachable,
the status is not 200 OK, the body is malformed JSON, or the
debugger-address field is empty — and succeeds for every other response;
and whenever the fetch fails, `ensureDebuggerURL` leaves any prior cache
unchanged. -/
theorem fetch_failure_conditions (r : HttpResult) (cache : String) :
    (discoveryFailed r = true ↔ discoveryFailureCase r) ∧
    (discoveryFailed r = true → (ensureDebuggerURL cache r).cache = cache) := by
  constructor
  · cases r with
    | unreachable msg => simp [discoveryFailed, fetchVersionInfo, discoveryFailureCase]
    | success resp =>
      simp only [discoveryFailed, fetchVersionInfo, discoveryFailureCase]
      by_cases hs : resp.statusCode = statusOK
      · cases hb : resp.body with
        | malformed msg => simp [hs, hb]
        | decoded info =>
          by_cases hu : info.webSocketDebuggerURL = "" <;> simp [hs, hb, hu]
      · simp [hs]
  · intro hfail
    by_cases hc : cache = ""
    · subst hc
      simp only [discoveryFailed] at hfail
      simp only [ensureDebuggerURL, ne_eq, not_true_eq_false, if_false]
      split at hfail
      · rename_i e he; simp [he]
      · simp at hfail
    · simp [ensure_cache_kept cache r hc]

/-- Witness for C2 (amended) at an unreachable backend. -/
theorem fetch_failure_conditions_witness :
    (discoveryFailed (.unreachable "connection refused") = true ↔
        discoveryFailureCase (.unreachable "connection refused")) ∧
    (discoveryFailed (.unreachable "connection refused") = true →
        (ensureDebuggerURL "ws://prior" (.unreachable "connection refused")).cache =
          "ws://prior") :=
  fetch_failure_conditions (.unreachable "connection refused") "ws://prior"

/-- C7: whenever the cache is already non-empty, `ensureDebuggerURL`
succeeds immediately, issues no backend request and leaves the cache
unchanged; hence any sequence of repeated calls while populated issues
zero backend requests in total. -/
theorem ensure_populated_noop (cache : String) (backend : HttpResult)
    (h : cache ≠ "") :
    ensureDebuggerURL cache backend = { err := none, cache := cache, requests := 0 } ∧
    ∀ backends : List HttpResult, ensureRepeat cache backends = (cache, 0) := by
  refine ⟨ensure_cache_kept cache backend h, ?_⟩
  intro backends
  induction backends with
  | nil => rfl
  | cons b bs ih => simp [ensureRepeat, ensure_cache_kept cache b h, ih]

/-- Witness for C7: two repeated calls on a populated cache against an
unreachable backend issue zero requests. -/
theorem ensure_populated_noop_witness :
    ensureDebuggerURL "ws://cached" (.unreachable "refused") =
      { err := none, cache := "ws://cached", requests := 0 } ∧
    ensureRepeat "ws://cached" [.unreachable "refused", .unreachable "refused"] =
      ("ws://cached", 0) :=
  ⟨(ensure_populated_noop "ws://cached" (.unreachable "refused") (by decide)).1,
   (ensure_populated_noop "ws://cached" (.unreachable "refused") (by decide)).2
     [.unreachable "refused", .unreachable "refused"]⟩

/-- C10: the version-info request targets the configured backend URL with
the path's trailing slash stripped and `/json/version` appended, the query
and fragment discarded, and the scheme and host (including any port)
preserved. -/
theorem versionEndpoint_components (u : URL) :
    (versionEndpoint u).scheme = u.scheme ∧
    (versionEndpoint u).host = u.host ∧
    (versionEndpoint u).path = trimSuffix u.path "/" ++ "/json/version" ∧
    (versionEndpoint u).rawQuery = "" ∧
    (versionEndpoint u).fragment = "" :=
  ⟨rfl, rfl, rfl, rfl, rfl⟩

/-- C3: every GET of the health route issues exactly one backend request,
whatever the prior cache; on fetch success it overwrites the cache with
the fetched debugger address and answers 200 with the JSON object
`{status: ok, browser, webSocketDebuggerUrl, protocolVersion}`; and in
particular the spec's sample backend response yields exactly the spec's
sample body. -/
theorem handleHealth_get (cache : String) (backend : HttpResult) :
    (handleHealth "GET" cache backend).requests = 1 ∧
    (∀ info, fetchVersionInfo backend = .ok info →
      handleHealth "GET" cache backend =
        { reply := .okJson
            [("status", "ok"),
             ("browser", info.browser),
             ("webSocketDebuggerUrl", info.webSocketDebuggerURL),
             ("protocolVersion", info.protocolVersion)],
          cache := info.webSocketDebuggerURL,
          requests := 1 }) ∧
    handleHealth "GET" cache (.success sampleResp) =
      { reply := .okJson
          [("status", "ok"),
           ("browser", "Chrome/1.0"),
           ("webSocketDebuggerUrl", "ws://127.0.0.1:9222/devtools/browser/abc"),
           ("protocolVersion", "1.3")],
        cache := "ws://127.0.0.1:9222/devtools/browser/abc",
        requests := 1 } := by
  refine ⟨?_, ?_, ?_⟩
  · simp only [handleHealth, ne_eq, not_true_eq_false, if_false]
    split <;> rfl
  · intro info hfetch
    simp [handleHealth, hfetch]
  · have hf : fetchVersionInfo (.success sampleResp) = .ok sampleInfo := rfl
    simp [handleHealth, hf, sampleInfo]

/-- Witness for C3 at a populated prior cache and the sample response. -/
theorem handleHealth_get_witness :
    (handleHealth "GET" "ws://old" (.success sampleResp)).requests = 1 ∧
    handleHealth "GET" "ws://old" (.success sampleResp) =
      { reply := .okJson
          [("status", "ok"),
           ("browser", sampleInfo.browser),
           ("webSocketDebuggerUrl", sampleInfo.webSocketDebuggerURL),
           ("protocolVersion", sampleInfo.protocolVersion)],
        cache := sampleInfo.webSocketDebuggerURL,
        requests := 1 } :=
  ⟨(handleHealth_get "ws://old" (.success sampleResp)).1,
   (handleHealth_get "ws://old" (.success sampleResp)).2.1 sampleInfo rfl⟩

/-- C4: each mirror pump forwards every message read from its source to
its destination with identical type and payload, preserving order; hence
against a verbatim-echoing backend a client's messages come back in the
same order with identical type and payload (each direction being an
instance of the same pump). -/
theorem mirror_roundtrip_fidelity (ms : List WsMessage) :
    mirrorWrites ms = ms ∧ roundTrip ms = ms := by
  have hid : ∀ l : List WsMessage, mirrorWrites l = l := by
    intro l
    induction l with
    | nil => rfl
    | cons m rest ih => simp [mirrorWrites, ih]
  exact ⟨hid ms, by simp [roundTrip, echoVerbatim, hid]⟩

/-- C5: when discovery or the backend dial fails after the upgrade, the
session sends exactly one close control frame, carrying the
CloseTryAgainLater code 1013 and the reason "upstream unavailable", and
never starts mirroring. -/
theorem close_frame_on_dial_failure (cache : String) (backend : HttpResult)
    (dial : DialResult) (h : (dialBackend cache backend dial).1 ≠ none) :
    closeTryAgainLater = 1013 ∧
    (serveWebSocket cache backend dial).1 =
      [.sentClose closeTryAgainLater "upstream unavailable", .closedClientConn] ∧
    ((serveWebSocket cache backend dial).1.countP (fun e => e.isClose)) = 1 ∧
    WsEvent.startedMirror ∉ (serveWebSocket cache backend dial).1 := by
  cases hd : (dialBackend cache backend dial).1 with
  | none => exact absurd hd h
  | some msg =>
    refine ⟨rfl, ?_, ?_, ?_⟩ <;>
      simp [serveWebSocket, hd, List.countP, List.countP.go, WsEvent.isClose]

/-- Witness for C5: empty cache and unreachable backend. -/
theorem close_frame_on_dial_failure_witness :
    closeTryAgainLater = 1013 ∧
    (serveWebSocket "" (.unreachable "refused") .connected).1 =
      [.sentClose closeTryAgainLater "upstream unavailable", .closedClientConn] ∧
    ((serveWebSocket "" (.unreachable "refused") .connected).1.countP
        (fun e => e.isClose)) = 1 ∧
    WsEvent.startedMirror ∉ (serveWebSocket "" (.unreachable "refused") .connected).1 :=
  close_frame_on_dial_failure "" (.unreachable "refused") .connected (by decide)

/-- C6: every cache-changing operation writes a non-empty string, and a
non-empty cache stays non-empty under every sequence of operations: the
cache never reverts from Populated to Undiscovered. -/
theorem cache_never_reverts :
    (∀ (cache : String) (op : Op), op.step cache ≠ cache → op.step cache ≠ "") ∧
    (∀ (ops : List Op) (cache : String), cache ≠ "" → runOps cache ops ≠ "") := by
  constructor
  · intro cache op hchange
    rcases step_writes_nonempty cache op with heq | hne
    · exact absurd heq hchange
    · exact hne
  · intro ops
    induction ops with
    | nil => intro cache h; simpa [runOps] using h
    | cons op rest ih =>
      intro cache h
      exact ih (op.step cache) (step_preserves_nonempty cache op h)

/-- Witness for C6: a populated cache survives a failing ensure, a health
refresh and a failed gateway session. -/
theorem cache_never_reverts_witness :
    (Op.ensure (.success sampleResp)).step "" ≠ "" ∧
    runOps "ws://cached"
      [Op.ensure (.unreachable "refused"),
       Op.request "/healthz" "GET" false (.success sampleResp),
       Op.session (.unreachable "refused") (.failed "refused")] ≠ "" :=
  ⟨cache_never_reverts.1 "" (Op.ensure (.success sampleResp)) (by decide),
   cache_never_reverts.2 _ "ws://cached" (by decide)⟩

/-- C8: a non-GET request to the health route answers 405 (code 405,
no backend request, cache untouched); a GET whose fetch fails answers 503
with the failure reason as body and the cache untouched; a non-upgrade
request on any other path answers 404. -/
theorem http_error_surface (cache : String) (backend : HttpResult)
    (method path : String) (isUpgrade : Bool) :
    HttpReply.methodNotAllowed.statusCode = 405 ∧
    (HttpReply.notFound).statusCode = 404 ∧
    (∀ reason, (HttpReply.serviceUnavailable reason).statusCode = 503) ∧
    (method ≠ "GET" →
      route "/healthz" method isUpgrade cache backend =
        { reply := .methodNotAllowed, cache := cache, requests := 0 }) ∧
    (∀ e, fetchVersionInfo backend = .error e →
      route "/healthz" "GET" isUpgrade cache backend =
        { reply := .serviceUnavailable e.message, cache := cache, requests := 1 }) ∧
    (path ≠ "/healthz" →
      route path method false cache backend =
        { reply := .notFound, cache := cache, requests := 0 }) := by
  refine ⟨rfl, rfl, fun _ => rfl, ?_, ?_, ?_⟩
  · intro hm
    simp [route, handleHealth, hm]
  · intro e he
    simp [route, handleHealth, he]
  · intro hp
    simp [route, handleProxy, hp]

/-- Witness for C8: POST to the health route, GET against an unreachable
backend, and a plain GET of the root path. -/
theorem http_error_surface_witness :
    (route "/healthz" "POST" false "ws://c" (.unreachable "refused") =
      { reply := .methodNotAllowed, cache := "ws://c", requests := 0 }) ∧
    (route "/healthz" "GET" false "ws://c" (.unreachable "refused") =
      { reply := .serviceUnavailable (DiscoveryError.transport "refused").message,
        cache := "ws://c", requests := 1 }) ∧
    (route "/" "GET" false "ws://c" (.unreachable "refused") =
      { reply := .notFound, cache := "ws://c", requests := 0 }) :=
  ⟨(http_error_surface "ws://c" (.unreachable "refused") "POST" "/" false).2.2.2.1
      (by decide),
   (http_error_surface "ws://c" (.unreachable "refused") "POST" "/" false).2.2.2.2.1
      (.transport "refused") rfl,
   (http_error_surface "ws://c" (.unreachable "refused") "GET" "/" false).2.2.2.2.2
      (by decide)⟩

/-- C9: the dial to the backend carries a `Sec-WebSocket-Protocol` header
equal to the client connection's negotiated subprotocol exactly when one
is present, and no such header otherwise. -/
theorem subprotocol_forwarded (s : String) :
    (s ≠ "" → dialHeader s = [("Sec-WebSocket-Protocol", s)]) ∧
    (s = "" → dialHeader s = []) := by
  constructor
  · intro h; simp [dialHeader, h]
  · intro h; simp [dialHeader, h]

/-- Witness for C9 at a concrete subprotocol and at none. -/
theorem subprotocol_forwarded_witness :
    dialHeader "v1.devtools" = [("Sec-WebSocket-Protocol", "v1.devtools")] ∧
    dialHeader "" = [] :=
  ⟨(subprotocol_forwarded "v1.devtools").1 (by decide),
   (subprotocol_forwarded "").2 rfl⟩

end Browserd
